import Mathlib

/-!
Verification of the Exo-plan-ate record-normalization and derivation engine
(`layman.py`, with the parallel distance converter of `app.py`).

Numeric catalog values are modelled as rationals (every IEEE float value is a
rational; float arithmetic is idealized as exact), and the habitable-zone
computation, which takes square roots, is carried out over the reals.
Missing/null fields are `none`; Python truthiness on a float field is
`some x` with `x ≠ 0`.
-/

/-- A raw catalog record: the fields of the input dictionaries that the
derivation engine reads.  Field order: pl_name, st_rad, st_teff, st_lum,
pl_orbsmax, sy_plx, sy_dist, pl_bmasse, pl_bmassj, pl_msinie, pl_msinij,
pl_rade, pl_radj. -/
structure Rec where
  pl_name : Option String
  st_rad : Option ℚ
  st_teff : Option ℚ
  st_lum : Option ℚ
  pl_orbsmax : Option ℚ
  sy_plx : Option ℚ
  sy_dist : Option ℚ
  pl_bmasse : Option ℚ
  pl_bmassj : Option ℚ
  pl_msinie : Option ℚ
  pl_msinij : Option ℚ
  pl_rade : Option ℚ
  pl_radj : Option ℚ

/-- Python truthiness of an optional float: `None` and `0` are falsy. -/
def truthy : Option ℚ → Bool
  | none => false
  | some x => decide (x ≠ 0)

/-- `layman.py` lines 16-31, `calculate_habitable_zone(star_luminosity, star_temp)`:
habitable-zone boundaries (AU) from luminosity (solar units) and temperature (K).
Idealization: `Real.sqrt` is total, returning 0 where Python's `math.sqrt`
raises `ValueError` (negative luminosity over a positive denominator, or a
negative denominator for extreme temperatures) and where a zero denominator
raises `ZeroDivisionError`; theorems about the downstream classification
restrict to the non-raising region (see `analysisRaises`). -/
noncomputable def calculate_habitable_zone (star_luminosity star_temp : ℝ) : ℝ × ℝ :=
  (0.72 * Real.sqrt (star_luminosity /
      (1.0 + 2.7619e-5 * (star_temp - 5700) - 3.8095e-9 * (star_temp - 5700) ^ 2)),
   1.77 * Real.sqrt (star_luminosity /
      (1.0 + 1.3786e-4 * (star_temp - 5700) - 1.4286e-9 * (star_temp - 5700) ^ 2)))

/-- `layman.py` lines 33-41, `calculate_hzd`: normalized habitable-zone distance. -/
noncomputable def calculate_hzd (planet_distance inner_hz outer_hz : ℝ) : ℝ :=
  (planet_distance - (inner_hz + outer_hz) / 2) / ((outer_hz - inner_hz) / 2)

/-- `layman.py` lines 43-49, `parse_stellar_luminosity(star_radius, star_temp)`:
`if not star_radius or not star_temp: return None` (truthiness), else
`star_radius**2 * (star_temp/5778)**4`. -/
def parse_stellar_luminosity : Option ℚ → Option ℚ → Option ℚ
  | some star_radius, some star_temp =>
      if star_radius = 0 ∨ star_temp = 0 then none
      else some (star_radius ^ 2 * (star_temp / 5778) ^ 4)
  | _, _ => none

/-- `layman.py` lines 51-59, `calculate_earth_distance_light_years(parallax,
distance_parsecs)`: direct parsec distance preferred; else `1000/parallax * 3.26`
whenever `parallax` is non-null and nonzero (note: no sign check). -/
def calculate_earth_distance_light_years (parallax distance_parsecs : Option ℚ) : Option ℚ :=
  match distance_parsecs with
  | some dp => some (dp * 3.26)
  | none =>
    match parallax with
    | some p => if p ≠ 0 then some (1000 / p * 3.26) else none
    | none => none

/-- `app.py` lines 70-86, `parallax_to_light_years(plx)`: `NaN`/null or `plx <= 0`
gives `NaN` (modelled `none`); else `(1000/plx) * 3.26`. -/
def parallax_to_light_years : Option ℚ → Option ℚ
  | none => none
  | some plx => if plx ≤ 0 then none else some (1000 / plx * 3.26)

/-- Mass extraction shared verbatim by `is_planet_habitable` (`layman.py`
lines 69-77) and `calculate_surface_gravity` (lines 182-188):
`pl_bmassj * 317.8` if `pl_bmassj` is non-null, else `pl_bmasse`. -/
def resolveMassMeasured (planet_mass : Rec) : Option ℚ :=
  match planet_mass.pl_bmassj with
  | some mj => some (mj * 317.8)
  | none => planet_mass.pl_bmasse

/-- Mass extraction of `get_planet_type` (`layman.py` lines 104-115):
`pl_bmassj * 317.8`, else `pl_bmasse`, else `pl_msinij * 317.8`, else `pl_msinie`. -/
def resolveMassGPT (planet_mass : Rec) : Option ℚ :=
  match planet_mass.pl_bmassj with
  | some mj => some (mj * 317.8)
  | none =>
    match planet_mass.pl_bmasse with
    | some me => some me
    | none =>
      match planet_mass.pl_msinij with
      | some mj => some (mj * 317.8)
      | none => planet_mass.pl_msinie

/-- Radius extraction shared verbatim by `get_planet_type` (`layman.py`
lines 118-124) and `calculate_surface_gravity` (lines 191-197):
`pl_rade` if non-null, else `pl_radj * 11.2`. -/
def resolveRadius (planet_radius : Rec) : Option ℚ :=
  match planet_radius.pl_rade with
  | some re => some re
  | none =>
    match planet_radius.pl_radj with
    | some rj => some (rj * 11.2)
    | none => none

/-- Mass suitability check of `is_planet_habitable` (`layman.py` lines 68-77):
vacuously true when neither measured-mass field is present. -/
def massSuitable (planet_mass : Rec) : Bool :=
  match resolveMassMeasured planet_mass with
  | some m => decide (0.1 ≤ m ∧ m ≤ 10)
  | none => true

/-- Radius suitability check of `is_planet_habitable` (`layman.py` lines 80-84):
only `pl_rade` is consulted; vacuously true when it is absent. -/
def sizeSuitable (planet_radius : Rec) : Bool :=
  match planet_radius.pl_rade with
  | some re => decide (0.5 ≤ re ∧ re ≤ 2.0)
  | none => true

/-- `layman.py` lines 61-93, `is_planet_habitable`: categorical habitability
assessment from zone membership and the mass/size suitability windows. -/
noncomputable def is_planet_habitable (planet_distance inner_hz outer_hz : ℝ)
    (planet_mass planet_radius : Rec) : String :=
  if inner_hz ≤ planet_distance ∧ planet_distance ≤ outer_hz then
    if massSuitable planet_mass ∧ sizeSuitable planet_radius then
      "Potentially habitable"
    else
      "In habitable zone but may not have right mass/size for habitability"
  else
    "Not in habitable zone"

/-- `layman.py` lines 95-171, `get_planet_type`: decision tables keyed on the
resolved mass/radius (both known, mass only, radius only, neither). -/
def get_planet_type (planet_mass planet_radius : Rec) : String :=
  match resolveMassGPT planet_mass, resolveRadius planet_radius with
  | some earth_mass, some earth_radius =>
    if earth_mass < 0.1 then "Sub-Earth/Mercury-like"
    else if earth_mass < 2 ∧ earth_radius < 1.5 then "Earth-like terrestrial planet"
    else if earth_mass < 10 ∧ earth_radius < 2.5 then "Super-Earth"
    else if earth_mass < 50 ∧ earth_radius < 6 then "Mini-Neptune/Gas Dwarf"
    else if earth_mass < 500 then "Neptune-like gas giant"
    else "Jupiter-like gas giant"
  | some earth_mass, none =>
    if earth_mass < 0.1 then "Sub-Earth/Mercury-like"
    else if earth_mass < 2 then "Possibly Earth-like"
    else if earth_mass < 10 then "Possibly Super-Earth"
    else if earth_mass < 50 then "Possibly Mini-Neptune"
    else if earth_mass < 500 then "Neptune-like gas giant"
    else "Jupiter-like gas giant"
  | none, some earth_radius =>
    if earth_radius < 0.8 then "Sub-Earth/Mercury-like"
    else if earth_radius < 1.5 then "Possibly Earth-like"
    else if earth_radius < 2.5 then "Possibly Super-Earth"
    else if earth_radius < 6 then "Possibly Mini-Neptune/Gas Dwarf"
    else if earth_radius < 15 then "Neptune-like gas giant"
    else "Jupiter-like gas giant"
  | none, none => "Unknown (insufficient data)"

/-- `layman.py` lines 173-205, `calculate_surface_gravity`: `mass / radius**2`
relative to Earth when both quantities resolve, else `None`.  (At a resolved
radius of exactly 0 the Python code raises `ZeroDivisionError`; rational
division by zero makes this total, and the theorems about it assume the
radius is nonzero.) -/
def calculate_surface_gravity (planet_mass planet_radius : Rec) : Option ℚ :=
  match resolveMassMeasured planet_mass, resolveRadius planet_radius with
  | some earth_mass, some earth_radius => some (earth_mass / earth_radius ^ 2)
  | _, _ => none

/-- `layman.py` lines 264-269 of `analyze_exoplanet`: the luminosity used for
the habitability analysis, derived from radius and temperature when `st_lum`
is null and both are truthy. -/
def resolveLum (planet_data : Rec) : Option ℚ :=
  if planet_data.st_lum = none ∧ truthy planet_data.st_rad ∧ truthy planet_data.st_teff then
    parse_stellar_luminosity planet_data.st_rad planet_data.st_teff
  else
    planet_data.st_lum

/-- `layman.py` lines 292-328 of `analyze_exoplanet`: the habitability
assessment string.  The guard `if star_luminosity and star_temp and
planet_distance` uses truthiness, so a zero value falls to the
`"Unknown"` branch just like a null one.  Because `Real.sqrt` and real
division are total, this returns a string even on inputs where the Python
pipeline raises and produces no assessment at all; the classification
theorem therefore assumes `analysisRaises` is false. -/
noncomputable def habAssessment (planet_data : Rec) : String :=
  match resolveLum planet_data, planet_data.st_teff, planet_data.pl_orbsmax with
  | some l, some t, some d =>
    if l = 0 ∨ t = 0 ∨ d = 0 then "Unknown"
    else
      is_planet_habitable (d : ℝ)
        (calculate_habitable_zone (l : ℝ) (t : ℝ)).1
        (calculate_habitable_zone (l : ℝ) (t : ℝ)).2
        planet_data planet_data
  | _, _, _ => "Unknown"

/-- Modelled from the source's exception behavior: the habitability pipeline
(`analyze_exoplanet` lines 292-328) raises when it is entered (the truthiness
guard passes) and `math.sqrt` receives a negative argument (`ValueError`), a
quadratic denominator is exactly zero (`ZeroDivisionError`), or the zone
degenerates to `ri = ro` (zero half-width division in `calculate_hzd`,
`ZeroDivisionError`).  `ri = ro` is phrased on the squares
`0.72² (l/di) = 1.77² (l/dv)`, which is equivalent once both square-root
arguments are nonnegative. -/
def hzRaises (planet_data : Rec) : Bool :=
  match resolveLum planet_data, planet_data.st_teff, planet_data.pl_orbsmax with
  | some l, some t, some d =>
    if l = 0 ∨ t = 0 ∨ d = 0 then false
    else
      let di := 1 + 2.7619e-5 * (t - 5700) - 3.8095e-9 * (t - 5700) ^ 2
      let dv := 1 + 1.3786e-4 * (t - 5700) - 1.4286e-9 * (t - 5700) ^ 2
      decide (di = 0 ∨ dv = 0 ∨ l / di < 0 ∨ l / dv < 0 ∨
        0.5184 * (l / di) = 3.1329 * (l / dv))
  | _, _, _ => false

/-- Modelled from the source's exception behavior: the surface-gravity step
(`layman.py` line 203) divides by `radius**2` and raises `ZeroDivisionError`
when a mass is resolved and the resolved radius is zero. -/
def gravityRaises (planet_data : Rec) : Bool :=
  match resolveMassMeasured planet_data, resolveRadius planet_data with
  | some _, some r => decide (r = 0)
  | _, _ => false

/-- Modelled from the source: `analyze_exoplanet` raises — and the processing
loop's `except` branch fires — exactly on the habitable-zone and
surface-gravity error inputs above; every other step of the analysis is total
for the modelled fields. -/
def analysisRaises (planet_data : Rec) : Bool :=
  hzRaises planet_data || gravityRaises planet_data

/-- The slice of `analyze_exoplanet`'s output dictionary that the claims are
about.  The `*_insufficient` flags record which sentence template the code
chose (the fixed "Insufficient data ..." sentence vs. the value-bearing one);
the sentence's numeric formatting is presentation and is not modelled. -/
structure Analysis where
  planet_name : String
  distance_insufficient : Bool
  distance_value : Option ℚ
  hab_assessment : String
  planet_type : String
  gravity_insufficient : Bool
  gravity_value : Option ℚ

/-- `layman.py` lines 249-483, `analyze_exoplanet`, restricted to the modelled
output fields.  Both the distance branch (line 279 `if distance_ly:`) and the
gravity branch (line 405 `if gravity:`) select the sentence by truthiness. -/
noncomputable def analyze_exoplanet (planet_data : Rec) : Analysis :=
  let distance_ly := calculate_earth_distance_light_years planet_data.sy_plx planet_data.sy_dist
  let gravity := calculate_surface_gravity planet_data planet_data
  ⟨planet_data.pl_name.getD "Unnamed planet",
   !truthy distance_ly,
   if truthy distance_ly then distance_ly else none,
   habAssessment planet_data,
   get_planet_type planet_data planet_data,
   !truthy gravity,
   if truthy gravity then gravity else none⟩

/-- `layman.py` lines 496-516 of `process_exoplanet_data`: the loop over the
record list, threading the set of already-processed planet names (modelled as
a list with membership).  The `try/except` of lines 510-516 is modelled via
`analysisRaises`: a record whose analysis raises is skipped WITHOUT adding
its name to the seen set (the name is only added after a successful
analysis, line 513). -/
noncomputable def process_planets : List Rec → List (Option String) → List Analysis
  | [], _ => []
  | p :: rest, seen =>
    if p.pl_name ∈ seen then process_planets rest seen
    else if analysisRaises p then process_planets rest seen
    else analyze_exoplanet p :: process_planets rest (p.pl_name :: seen)

/-- `layman.py` lines 485-534, `process_exoplanet_data` on a list input:
starts with an empty seen-set. -/
noncomputable def process_exoplanet_data (data : List Rec) : List Analysis :=
  process_planets data []

/-- Modelled from the spec (section 4.8) together with the loop's `except`
path: the subsequence of the input keeping, for each planet name, its first
occurrence whose analysis succeeds (relative to names already `seen`).
Used to state the deduplication claim as a refinement. -/
def firstOcc : List Rec → List (Option String) → List Rec
  | [], _ => []
  | p :: rest, seen =>
    if p.pl_name ∈ seen then firstOcc rest seen
    else if analysisRaises p then firstOcc rest seen
    else p :: firstOcc rest (p.pl_name :: seen)

/-- The claim's reading of the mass window: mass absent, or the resolved mass
within `[0.1, 10]` Earth masses. -/
def massOk (planet_mass : Rec) : Prop :=
  resolveMassMeasured planet_mass = none ∨
    ∃ m, resolveMassMeasured planet_mass = some m ∧ 0.1 ≤ m ∧ m ≤ 10

/-- The claim's reading of the radius window: radius absent, or the Earth-radius
field within `[0.5, 2.0]`. -/
def sizeOk (planet_radius : Rec) : Prop :=
  planet_radius.pl_rade = none ∨
    ∃ r, planet_radius.pl_rade = some r ∧ 0.5 ≤ r ∧ r ≤ 2.0

/-- Record with `st_teff = 5700`, `st_lum = 1`, `pl_orbsmax = 1`. -/
def recW : Rec :=
  ⟨none, none, some 5700, some 1, some 1, none, none, none, none, none, none, none, none⟩

/-- Record with `st_teff = 5700`, `st_lum = 0` (present but zero), `pl_orbsmax = 1`. -/
def recL0 : Rec :=
  ⟨none, none, some 5700, some 0, some 1, none, none, none, none, none, none, none, none⟩

/-- Record with `sy_dist = 0` (present but zero). -/
def recD0 : Rec :=
  ⟨none, none, none, none, none, none, some 0, none, none, none, none, none, none⟩

/-- Record with `pl_bmasse = 0` (present but zero) and `pl_rade = 1`. -/
def recG0 : Rec :=
  ⟨none, none, none, none, none, none, none, some 0, none, none, none, some 1, none⟩

/-- Record with both `pl_bmasse = 1` and `pl_bmassj = 1` present. -/
def recBothMass : Rec :=
  ⟨none, none, none, none, none, none, none, some 1, some 1, none, none, none, none⟩

/-- Record with `pl_bmasse = 1` and `pl_rade = 1`. -/
def recEarthlike : Rec :=
  ⟨none, none, none, none, none, none, none, some 1, none, none, none, some 1, none⟩

/-- Record with only the minimum-mass field `pl_msinie = 1` and `pl_rade = 1`. -/
def recMsini : Rec :=
  ⟨none, none, none, none, none, none, none, none, none, some 1, none, some 1, none⟩

/-- Record with `st_rad = 1`, `st_teff = 5700`, `st_lum` absent (Scenario B). -/
def recB : Rec :=
  ⟨none, some 1, some 5700, none, none, none, none, none, none, none, none, none, none⟩

/-- Record named "X" whose analysis raises: measured mass 5 with radius 0
hits `ZeroDivisionError` in the surface-gravity step. -/
def recRaise : Rec :=
  ⟨some "X", none, none, none, none, none, none, some 5, none, none, none, some 0, none⟩

/-- Record also named "X" whose analysis succeeds (mass 5, radius 1). -/
def recDup : Rec :=
  ⟨some "X", none, none, none, none, none, none, some 5, none, none, none, some 1, none⟩

/-- Products with square roots compare like their squares. -/
theorem mul_sqrt_lt_mul_sqrt {a b c d : ℝ} (ha : 0 ≤ a) (hb : 0 ≤ b) (hc : 0 ≤ c)
    (h : a ^ 2 * b < c ^ 2 * d) : a * Real.sqrt b < c * Real.sqrt d := by
  have h1 : a * Real.sqrt b = Real.sqrt (a ^ 2 * b) := by
    rw [Real.sqrt_mul (by positivity) b, Real.sqrt_sq ha]
  have h2 : c * Real.sqrt d = Real.sqrt (c ^ 2 * d) := by
    rw [Real.sqrt_mul (by positivity) d, Real.sqrt_sq hc]
  rw [h1, h2]
  exact Real.sqrt_lt_sqrt (mul_nonneg (sq_nonneg a) hb) h

/-- C6: given habitable-zone bounds `ri < ro`, the normalized habitable-zone
distance `calculate_hzd d ri ro` lies in `[-1, 1]` if and only if
`ri ≤ d ≤ ro`. -/
theorem hzd_in_unit_interval_iff (d ri ro : ℝ) (h : ri < ro) :
    (-1 ≤ calculate_hzd d ri ro ∧ calculate_hzd d ri ro ≤ 1) ↔ (ri ≤ d ∧ d ≤ ro) := by
  have hw : 0 < (ro - ri) / 2 := by linarith
  unfold calculate_hzd
  rw [div_le_one hw, le_div_iff₀ hw]
  constructor
  · rintro ⟨h1, h2⟩
    constructor <;> linarith
  · rintro ⟨h1, h2⟩
    constructor <;> linarith

/-- Witness for C6 at `d = 1`, `ri = 0.72`, `ro = 1.77`. -/
theorem hzd_in_unit_interval_iff_witness :
    (0.72 : ℝ) < 1.77 ∧
      ((-1 ≤ calculate_hzd 1 0.72 1.77 ∧ calculate_hzd 1 0.72 1.77 ≤ 1) ↔
        ((0.72 : ℝ) ≤ 1 ∧ (1 : ℝ) ≤ 1.77)) :=
  ⟨by norm_num, hzd_in_unit_interval_iff 1 0.72 1.77 (by norm_num)⟩

/-- C3: `layman.py`'s converter returns a NEGATIVE distance for negative
parallax (it only guards against zero), while `app.py`'s converter returns
absent there; for positive parallax both give `(1000/plx) * 3.26`
(32.6 light-years at 100 mas, Scenario A). -/
theorem distance_negative_parallax_bug :
    calculate_earth_distance_light_years (some (-5)) none = some (-652) ∧
      parallax_to_light_years (some (-5)) = none ∧
      calculate_earth_distance_light_years (some 100) none = some 32.6 ∧
      parallax_to_light_years (some 100) = some 32.6 := by
  refine ⟨?_, ?_, ?_, ?_⟩ <;>
    norm_num [calculate_earth_distance_light_years, parallax_to_light_years]

/-- C2 counterexample: with both `pl_bmasse = 1` and `pl_bmassj = 1` present,
every mass-consuming derivation resolves `1 * 317.8 = 317.8` Earth masses from
the Jupiter-mass field, not `1` from the Earth-mass field: the habitability
mass check fails and the planet is typed from the Jupiter-derived value. -/
theorem mass_priority_counterexample :
    recBothMass.pl_bmasse = some 1 ∧
      resolveMassGPT recBothMass = some 317.8 ∧
      resolveMassMeasured recBothMass = some 317.8 ∧
      massSuitable recBothMass = false ∧
      get_planet_type recBothMass recBothMass = "Neptune-like gas giant" ∧
      (317.8 : ℚ) ≠ 1 := by
  refine ⟨rfl, by norm_num [resolveMassGPT, recBothMass],
    by norm_num [resolveMassMeasured, recBothMass],
    by simp [massSuitable, resolveMassMeasured, recBothMass]; norm_num,
    by norm_num [get_planet_type, resolveMassGPT, resolveRadius, recBothMass],
    by norm_num⟩

/-- C2 amended: when both the Earth-mass and Jupiter-mass fields are present,
the three mass-consuming derivations (planet type, habitability mass check,
surface gravity) all resolve the Jupiter-mass field times 317.8. -/
theorem mass_priority_jupiter_first (planet_mass : Rec) (me mj : ℚ)
    (_hme : planet_mass.pl_bmasse = some me) (hmj : planet_mass.pl_bmassj = some mj) :
    resolveMassGPT planet_mass = some (mj * 317.8) ∧
      resolveMassMeasured planet_mass = some (mj * 317.8) := by
  unfold resolveMassGPT resolveMassMeasured
  rw [hmj]
  exact ⟨rfl, rfl⟩

/-- Witness for C2 amended at `pl_bmasse = 1`, `pl_bmassj = 1`. -/
theorem mass_priority_jupiter_first_witness :
    resolveMassGPT recBothMass = some (1 * 317.8) ∧
      resolveMassMeasured recBothMass = some (1 * 317.8) :=
  mass_priority_jupiter_first recBothMass 1 1 rfl rfl

/-- C7: whenever both mass and radius resolve, `get_planet_type` follows the
both-known decision table evaluated in order. -/
theorem planet_type_both_known (planet_mass planet_radius : Rec) (m r : ℚ)
    (hm : resolveMassGPT planet_mass = some m) (hr : resolveRadius planet_radius = some r) :
    get_planet_type planet_mass planet_radius =
      (if m < 0.1 then "Sub-Earth/Mercury-like"
       else if m < 2 ∧ r < 1.5 then "Earth-like terrestrial planet"
       else if m < 10 ∧ r < 2.5 then "Super-Earth"
       else if m < 50 ∧ r < 6 then "Mini-Neptune/Gas Dwarf"
       else if m < 500 then "Neptune-like gas giant"
       else "Jupiter-like gas giant") := by
  unfold get_planet_type
  rw [hm, hr]

/-- Witness for C7: mass ratio 1 and radius ratio 1 (Scenario C) give the
Earth-like label. -/
theorem planet_type_both_known_witness :
    resolveMassGPT recEarthlike = some 1 ∧ resolveRadius recEarthlike = some 1 ∧
      get_planet_type recEarthlike recEarthlike = "Earth-like terrestrial planet" := by
  refine ⟨rfl, rfl, ?_⟩
  rw [planet_type_both_known recEarthlike recEarthlike 1 1 rfl rfl]
  norm_num

/-- C8 counterexample: with only the minimum-mass field `pl_msinie = 1` and
`pl_rade = 1`, the resolver that includes minimum-mass fields resolves both
quantities, yet the surface gravity is absent, because the gravity
calculation's own mass extraction ignores the minimum-mass fields. -/
theorem gravity_msini_counterexample :
    resolveMassGPT recMsini = some 1 ∧ resolveRadius recMsini = some 1 ∧
      calculate_surface_gravity recMsini recMsini = none :=
  ⟨rfl, rfl, rfl⟩

/-- C8 amended: surface gravity equals `m / r²` whenever its own extraction
(measured-mass fields only, no minimum-mass fallback) and the radius
extraction both succeed (for nonzero radius, where the Python division is
defined), and it is absent whenever either extraction fails. -/
theorem gravity_eq_mass_over_radius_sq (planet_mass planet_radius : Rec) :
    (∀ m r, resolveMassMeasured planet_mass = some m →
        resolveRadius planet_radius = some r → r ≠ 0 →
        calculate_surface_gravity planet_mass planet_radius = some (m / r ^ 2)) ∧
      (resolveMassMeasured planet_mass = none ∨ resolveRadius planet_radius = none →
        calculate_surface_gravity planet_mass planet_radius = none) := by
  constructor
  · intro m r hm hr _
    unfold calculate_surface_gravity
    rw [hm, hr]
  · intro h
    unfold calculate_surface_gravity
    rcases h with h | h
    · rw [h]
    · rcases hm : resolveMassMeasured planet_mass with _ | m <;> rw [h]

/-- Witness for C8 amended: mass 1 and radius 1 give gravity `1 / 1² = 1`. -/
theorem gravity_eq_mass_over_radius_sq_witness :
    (1 : ℚ) ≠ 0 ∧ calculate_surface_gravity recEarthlike recEarthlike = some (1 / 1 ^ 2) :=
  ⟨by norm_num,
    (gravity_eq_mass_over_radius_sq recEarthlike recEarthlike).1 1 1 rfl rfl (by norm_num)⟩

/-- C10: presence is tested by truthiness, so zero behaves like absent: a
present stellar luminosity of 0 yields habitability "Unknown"; a computed
distance of 0 light-years selects the insufficient-data distance sentence
(value emitted as null); a computed gravity ratio of 0 selects the
insufficient-data gravity sentence (value emitted as null). -/
theorem zero_treated_as_missing :
    recL0.st_lum = some 0 ∧ (analyze_exoplanet recL0).hab_assessment = "Unknown" ∧
      calculate_earth_distance_light_years recD0.sy_plx recD0.sy_dist = some 0 ∧
      (analyze_exoplanet recD0).distance_insufficient = true ∧
      (analyze_exoplanet recD0).distance_value = none ∧
      calculate_surface_gravity recG0 recG0 = some 0 ∧
      (analyze_exoplanet recG0).gravity_insufficient = true ∧
      (analyze_exoplanet recG0).gravity_value = none := by
  have hlum : resolveLum recL0 = some 0 := by simp [resolveLum, recL0]
  have hhab : habAssessment recL0 = "Unknown" := by
    have ht : recL0.st_teff = some 5700 := rfl
    have ho : recL0.pl_orbsmax = some 1 := rfl
    simp only [habAssessment, hlum, ht, ho]
    norm_num
  have hd : calculate_earth_distance_light_years recD0.sy_plx recD0.sy_dist = some 0 := by
    norm_num [calculate_earth_distance_light_years, recD0]
  have hg : calculate_surface_gravity recG0 recG0 = some 0 := by
    norm_num [calculate_surface_gravity, resolveMassMeasured, resolveRadius, recG0]
  refine ⟨rfl, ?_, hd, ?_, ?_, hg, ?_, ?_⟩ <;>
    simp [analyze_exoplanet, hhab, hd, hg, truthy]

/-- C4 counterexample: at the physically valid B-star temperature
`T = 24000 K` with `L = 1`, the computed inner boundary EXCEEDS the outer
boundary (both quadratic denominators are still positive there). -/
theorem hz_inverted_at_hot_star :
    (calculate_habitable_zone 1 24000).2 < (calculate_habitable_zone 1 24000).1 := by
  simp only [calculate_habitable_zone]
  apply mul_sqrt_lt_mul_sqrt (by norm_num) (by norm_num) (by norm_num)
  norm_num

/-- C4 amended: for every luminosity `L > 0` and temperature `0 < T ≤ 21000 K`
(covering the habitable-zone formula's intended main-sequence range; the
ordering fails above roughly 21670 K), the inner boundary is strictly below
the outer boundary. -/
theorem hz_inner_lt_outer (L T : ℝ) (hL : 0 < L) (hT0 : 0 < T) (hT : T ≤ 21000) :
    (calculate_habitable_zone L T).1 < (calculate_habitable_zone L T).2 := by
  simp only [calculate_habitable_zone]
  have hmul : 0 ≤ T * (21000 - T) := mul_nonneg hT0.le (by linarith)
  have hdi : (0:ℝ) < 1.0 + 2.7619e-5 * (T - 5700) - 3.8095e-9 * (T - 5700) ^ 2 := by
    nlinarith [hmul, sq_nonneg T]
  have hdo : (0:ℝ) < 1.0 + 1.3786e-4 * (T - 5700) - 1.4286e-9 * (T - 5700) ^ 2 := by
    nlinarith [hmul, sq_nonneg T]
  have key : (0.5184:ℝ) * (1.0 + 1.3786e-4 * (T - 5700) - 1.4286e-9 * (T - 5700) ^ 2) <
      3.1329 * (1.0 + 2.7619e-5 * (T - 5700) - 3.8095e-9 * (T - 5700) ^ 2) := by
    nlinarith [hmul, sq_nonneg T]
  apply mul_sqrt_lt_mul_sqrt (by norm_num) (div_nonneg hL.le hdi.le) (by norm_num)
  rw [show (0.72:ℝ) ^ 2 * (L / (1.0 + 2.7619e-5 * (T - 5700) - 3.8095e-9 * (T - 5700) ^ 2)) =
      0.5184 * L / (1.0 + 2.7619e-5 * (T - 5700) - 3.8095e-9 * (T - 5700) ^ 2) by ring,
    show (1.77:ℝ) ^ 2 * (L / (1.0 + 1.3786e-4 * (T - 5700) - 1.4286e-9 * (T - 5700) ^ 2)) =
      3.1329 * L / (1.0 + 1.3786e-4 * (T - 5700) - 1.4286e-9 * (T - 5700) ^ 2) by ring,
    div_lt_div_iff₀ hdi hdo]
  nlinarith [mul_lt_mul_of_pos_left key hL]

/-- Witness for C4 amended at `L = 1`, `T = 5700`. -/
theorem hz_inner_lt_outer_witness :
    (calculate_habitable_zone 1 5700).1 < (calculate_habitable_zone 1 5700).2 :=
  hz_inner_lt_outer 1 5700 (by norm_num) (by norm_num) (by norm_num)

/-- At the reference temperature 5700 K both quadratic denominators are 1, so
the zone boundaries are `0.72 √L` and `1.77 √L`. -/
theorem hz_at_ref_temp (L : ℝ) :
    calculate_habitable_zone L 5700 = (0.72 * Real.sqrt L, 1.77 * Real.sqrt L) := by
  simp only [calculate_habitable_zone]
  norm_num

/-- The square root of the derived solar-units luminosity at 5700 K. -/
theorem sqrt_lum_5700 : Real.sqrt ((5700 / 5778 : ℝ) ^ 4) = (5700 / 5778 : ℝ) ^ 2 := by
  rw [show ((5700 / 5778 : ℝ) ^ 4) = ((5700 / 5778 : ℝ) ^ 2) ^ 2 by ring,
    Real.sqrt_sq (by positivity)]

/-- C5 counterexample: for stellar radius 1 and `T = 5700 K` the derived
luminosity is `(5700/5778)⁴ ≈ 0.947`, NOT 1 (the derivation divides by the
solar temperature 5778 K while the zone formula references 5700 K), and the
resulting inner boundary is not 0.72 AU. -/
theorem scenarioB_counterexample :
    parse_stellar_luminosity (some 1) (some 5700) ≠ some 1 ∧
      (calculate_habitable_zone ((5700 / 5778 : ℝ) ^ 4) 5700).1 ≠ 0.72 := by
  constructor
  · simp only [parse_stellar_luminosity]
    norm_num
  · rw [hz_at_ref_temp]
    simp only [sqrt_lum_5700]
    norm_num

/-- C5 amended: for the record with `st_rad = 1`, `st_teff = 5700`, `st_lum`
absent, the luminosity used by the analysis is `(5700/5778)⁴ ≈ 0.9471` solar
units, and the habitable-zone boundaries are `ri = 0.72 (5700/5778)² ≈ 0.7007`
AU and `ro = 1.77 (5700/5778)² ≈ 1.7226` AU. -/
theorem scenarioB_values :
    resolveLum recB = some ((5700 / 5778 : ℚ) ^ 4) ∧
      calculate_habitable_zone ((5700 / 5778 : ℝ) ^ 4) 5700 =
        (0.72 * (5700 / 5778 : ℝ) ^ 2, 1.77 * (5700 / 5778 : ℝ) ^ 2) := by
  constructor
  · simp only [resolveLum, recB, truthy]
    norm_num [parse_stellar_luminosity]
  · rw [hz_at_ref_temp, sqrt_lum_5700]

/-- The Boolean mass-suitability check agrees with the claim's mass window. -/
theorem massSuitable_iff (planet_mass : Rec) :
    massSuitable planet_mass = true ↔ massOk planet_mass := by
  unfold massSuitable massOk
  rcases h : resolveMassMeasured planet_mass with _ | m <;> simp [h]

/-- The Boolean radius-suitability check agrees with the claim's radius window. -/
theorem sizeSuitable_iff (planet_radius : Rec) :
    sizeSuitable planet_radius = true ↔ sizeOk planet_radius := by
  unfold sizeSuitable sizeOk
  rcases h : planet_radius.pl_rade with _ | r <;> simp [h]

/-- C1 amended: for every record whose luminosity (possibly derived),
temperature and orbital distance are present AND nonzero (truthy), and whose
analysis completes without raising (`analysisRaises` false — on the Python
error paths, negative square-root arguments, zero denominators or a
degenerate zone, no assessment is produced at all), the assessment is
"Potentially habitable" iff the planet is in the zone and both windows pass;
"In habitable zone but ..." iff in zone with a window failing; "Not in
habitable zone" iff out of zone; and never "Unknown". -/
theorem habitability_classification (planet_data : Rec) (l t d : ℚ)
    (hl : resolveLum planet_data = some l) (ht : planet_data.st_teff = some t)
    (hd : planet_data.pl_orbsmax = some d)
    (hl0 : l ≠ 0) (ht0 : t ≠ 0) (hd0 : d ≠ 0)
    (_hsafe : analysisRaises planet_data = false) :
    (habAssessment planet_data = "Potentially habitable" ↔
      ((calculate_habitable_zone (l : ℝ) (t : ℝ)).1 ≤ (d : ℝ) ∧
          (d : ℝ) ≤ (calculate_habitable_zone (l : ℝ) (t : ℝ)).2) ∧
        massOk planet_data ∧ sizeOk planet_data) ∧
    (habAssessment planet_data =
        "In habitable zone but may not have right mass/size for habitability" ↔
      ((calculate_habitable_zone (l : ℝ) (t : ℝ)).1 ≤ (d : ℝ) ∧
          (d : ℝ) ≤ (calculate_habitable_zone (l : ℝ) (t : ℝ)).2) ∧
        ¬(massOk planet_data ∧ sizeOk planet_data)) ∧
    (habAssessment planet_data = "Not in habitable zone" ↔
      ¬((calculate_habitable_zone (l : ℝ) (t : ℝ)).1 ≤ (d : ℝ) ∧
          (d : ℝ) ≤ (calculate_habitable_zone (l : ℝ) (t : ℝ)).2)) ∧
    habAssessment planet_data ≠ "Unknown" := by
  have hA : habAssessment planet_data =
      is_planet_habitable (d : ℝ) (calculate_habitable_zone (l : ℝ) (t : ℝ)).1
        (calculate_habitable_zone (l : ℝ) (t : ℝ)).2 planet_data planet_data := by
    simp only [habAssessment, hl, ht, hd]
    rw [if_neg (by simp [hl0, ht0, hd0])]
  rw [hA]
  unfold is_planet_habitable
  by_cases hz : (calculate_habitable_zone (l : ℝ) (t : ℝ)).1 ≤ (d : ℝ) ∧
      (d : ℝ) ≤ (calculate_habitable_zone (l : ℝ) (t : ℝ)).2
  · rw [if_pos hz]
    by_cases hok : massOk planet_data ∧ sizeOk planet_data
    · rw [if_pos ⟨(massSuitable_iff _).2 hok.1, (sizeSuitable_iff _).2 hok.2⟩]
      refine ⟨?_, ?_, ?_, ?_⟩ <;> simp [hz, hok]
    · rw [if_neg (fun hb => hok ⟨(massSuitable_iff _).1 hb.1, (sizeSuitable_iff _).1 hb.2⟩)]
      refine ⟨?_, ?_, ?_, ?_⟩ <;> simp [hz, hok]
  · rw [if_neg hz]
    refine ⟨?_, ?_, ?_, ?_⟩ <;> simp [hz]

/-- Witness for C1 amended: `L = 1`, `T = 5700`, `d = 1` with no mass or
radius fields gives "Potentially habitable". -/
theorem habitability_classification_witness :
    habAssessment recW = "Potentially habitable" := by
  have hsafe : analysisRaises recW = false := by
    have h1 : hzRaises recW = false := by
      simp only [hzRaises, recW, resolveLum, truthy]
      norm_num
    have h2 : gravityRaises recW = false := by
      simp [gravityRaises, resolveMassMeasured, resolveRadius, recW]
    simp [analysisRaises, h1, h2]
  have h := habitability_classification recW 1 5700 1 rfl rfl rfl
    (by norm_num) (by norm_num) (by norm_num) hsafe
  refine h.1.mpr ⟨?_, Or.inl rfl, Or.inl rfl⟩
  rw [show ((1 : ℚ) : ℝ) = 1 by norm_num, show ((5700 : ℚ) : ℝ) = 5700 by norm_num,
    hz_at_ref_temp]
  norm_num [Real.sqrt_one]

/-- C1 counterexample: the record with `st_lum = 0`, `st_teff = 5700`,
`pl_orbsmax = 1` has luminosity, temperature and distance all PRESENT, yet the
assessment is "Unknown" (and in particular not "Not in habitable zone"),
because presence is tested by truthiness. -/
theorem habitability_unknown_at_zero_lum :
    recL0.st_lum = some 0 ∧ recL0.st_teff = some 5700 ∧ recL0.pl_orbsmax = some 1 ∧
      habAssessment recL0 = "Unknown" := by
  have hlum : resolveLum recL0 = some 0 := by simp [resolveLum, recL0]
  have ht : recL0.st_teff = some 5700 := rfl
  have ho : recL0.pl_orbsmax = some 1 := rfl
  refine ⟨rfl, rfl, rfl, ?_⟩
  simp only [habAssessment, hlum, ht, ho]
  norm_num

/-- The processing loop analyzes exactly the first-successful-occurrence
subsequence. -/
theorem process_planets_eq_firstOcc (data : List Rec) :
    ∀ seen, process_planets data seen = (firstOcc data seen).map analyze_exoplanet := by
  induction data with
  | nil => intro seen; rfl
  | cons p rest ih =>
    intro seen
    by_cases h : p.pl_name ∈ seen
    · simp [process_planets, firstOcc, h, ih]
    · by_cases hr : analysisRaises p = true
      · simp [process_planets, firstOcc, h, hr, ih]
      · simp [process_planets, firstOcc, h, hr, ih]

/-- The names kept by `firstOcc` are pairwise distinct and avoid the seen set. -/
theorem firstOcc_names_nodup (data : List Rec) :
    ∀ seen, ((firstOcc data seen).map Rec.pl_name).Nodup ∧
      ∀ n ∈ (firstOcc data seen).map Rec.pl_name, n ∉ seen := by
  induction data with
  | nil => intro seen; exact ⟨List.nodup_nil, by simp [firstOcc]⟩
  | cons p rest ih =>
    intro seen
    by_cases h : p.pl_name ∈ seen
    · simpa [firstOcc, h] using ih seen
    · by_cases hr : analysisRaises p = true
      · simpa [firstOcc, h, hr] using ih seen
      · obtain ⟨hnd, hnm⟩ := ih (p.pl_name :: seen)
        have h1 : firstOcc (p :: rest) seen = p :: firstOcc rest (p.pl_name :: seen) := by
          simp [firstOcc, h, hr]
        rw [h1, List.map_cons]
        constructor
        · exact List.nodup_cons.2
            ⟨fun hmem => (hnm _ hmem) (List.mem_cons_self _ _), hnd⟩
        · intro n hn hns
          rcases List.mem_cons.1 hn with rfl | hn'
          · exact h hns
          · exact hnm _ hn' (List.mem_cons_of_mem _ hns)

/-- For a name not in the seen set, the first matching record of the
first-successful-occurrence subsequence is the first matching NON-RAISING
record of the input. -/
theorem firstOcc_find (data : List Rec) :
    ∀ seen (n : Option String), n ∉ seen →
      (firstOcc data seen).find? (fun p => decide (p.pl_name = n)) =
        (data.filter (fun p => !analysisRaises p)).find?
          (fun p => decide (p.pl_name = n)) := by
  induction data with
  | nil => intro seen n _; rfl
  | cons p rest ih =>
    intro seen n hn
    by_cases hr : analysisRaises p = true
    · have hf : (p :: rest).filter (fun q => !analysisRaises q) =
          rest.filter (fun q => !analysisRaises q) := by
        simp [List.filter_cons, hr]
      rw [hf]
      by_cases h : p.pl_name ∈ seen
      · have h1 : firstOcc (p :: rest) seen = firstOcc rest seen := by
          simp [firstOcc, h]
        rw [h1]
        exact ih seen n hn
      · have h1 : firstOcc (p :: rest) seen = firstOcc rest seen := by
          simp [firstOcc, h, hr]
        rw [h1]
        exact ih seen n hn
    · have hf : (p :: rest).filter (fun q => !analysisRaises q) =
          p :: rest.filter (fun q => !analysisRaises q) := by
        simp [List.filter_cons, hr]
      rw [hf]
      by_cases h : p.pl_name ∈ seen
      · have hne : ¬(p.pl_name = n) := fun he => hn (he ▸ h)
        have h1 : firstOcc (p :: rest) seen = firstOcc rest seen := by
          simp [firstOcc, h]
        rw [h1, List.find?_cons, show (decide (p.pl_name = n)) = false by simp [hne]]
        exact ih seen n hn
      · have h1 : firstOcc (p :: rest) seen = p :: firstOcc rest (p.pl_name :: seen) := by
          simp [firstOcc, h, hr]
        rw [h1, List.find?_cons, List.find?_cons]
        by_cases he : p.pl_name = n
        · rw [show (decide (p.pl_name = n)) = true by simp [he]]
        · rw [show (decide (p.pl_name = n)) = false by simp [he]]
          refine ih (p.pl_name :: seen) n ?_
          intro hc
          rcases List.mem_cons.1 hc with rfl | hc'
          · exact he rfl
          · exact hn hc'

/-- C9 counterexample: two records both named "X"; the FIRST one's analysis
raises (`ZeroDivisionError`: measured mass 5 with radius 0), so it is skipped
WITHOUT its name entering the seen set, and the emitted ExplanationRecord for
"X" comes from the SECOND record (its gravity `5/1² = 5` is visible in the
output) — contradicting "the first record in arrival order bearing a given
name produces the ExplanationRecord for that name". -/
theorem dedup_emits_second_record_after_failure :
    recRaise.pl_name = some "X" ∧ recDup.pl_name = some "X" ∧
      analysisRaises recRaise = true ∧
      process_exoplanet_data [recRaise, recDup] = [analyze_exoplanet recDup] ∧
      (analyze_exoplanet recDup).gravity_value = some 5 := by
  have hz1 : hzRaises recRaise = false := by
    simp [hzRaises, resolveLum, recRaise, truthy]
  have hz2 : hzRaises recDup = false := by
    simp [hzRaises, resolveLum, recDup, truthy]
  have hr1 : analysisRaises recRaise = true := by
    rw [analysisRaises, hz1]
    simp [gravityRaises, resolveMassMeasured, resolveRadius, recRaise]
  have hr2 : analysisRaises recDup = false := by
    rw [analysisRaises, hz2]
    simp [gravityRaises, resolveMassMeasured, resolveRadius, recDup]
  have hcsg : calculate_surface_gravity recDup recDup = some 5 := by
    norm_num [calculate_surface_gravity, resolveMassMeasured, resolveRadius, recDup]
  have hg : (analyze_exoplanet recDup).gravity_value = some 5 := by
    simp [analyze_exoplanet, hcsg, truthy]
  have hp : process_exoplanet_data [recRaise, recDup] = [analyze_exoplanet recDup] := by
    simp [process_exoplanet_data, process_planets, hr1, hr2]
  exact ⟨rfl, rfl, hr1, hp, hg⟩

/-- C9 amended: processing emits one record per unique planet name among the
successfully analyzed records: the output is the first-successful-occurrence
subsequence analyzed in order, output names are pairwise distinct, and for
every name the emitted record comes from the first NON-RAISING input record
bearing it (a first record whose analysis raises is skipped without claiming
the name, so a later record with the same name is emitted instead). -/
theorem process_dedup_first_successful_occurrence (data : List Rec) :
    process_exoplanet_data data = (firstOcc data []).map analyze_exoplanet ∧
      ((firstOcc data []).map Rec.pl_name).Nodup ∧
      ∀ n : Option String,
        (firstOcc data []).find? (fun p => decide (p.pl_name = n)) =
          (data.filter (fun p => !analysisRaises p)).find?
            (fun p => decide (p.pl_name = n)) :=
  ⟨process_planets_eq_firstOcc data [], (firstOcc_names_nodup data []).1,
    fun n => firstOcc_find data [] n (List.not_mem_nil n)⟩
